import Mathlib

/-!
Verification of the identifier-resolution and hierarchical-projection logic of
`src/python/lsst/dax/metaserv/api_v1.py` (the metadata REST service).

The embedding models the catalog store as explicit lists of records, SQLAlchemy
query combinators (`.first()`, `.scalar()`, `.all()`) as list operations, and each
Flask route handler as a pure function from the store state and the request path
tokens to a query count and either a JSON document or a raised Python exception
(an uncaught exception is rendered by Flask as an HTTP 500 response).

The ORM models (`model.py`) and marshmallow serializers (`api_model.py`) are not
under `src/`; the definitions below that depend on them carry a
`Modelled from the spec:` doc comment and follow the specification text.
-/

/-- JSON values with ordered object fields (Python dicts / OrderedDict preserve
insertion order, which `jsonify` serializes in order). -/
inductive JVal where
  | s (v : String)
  | jn (v : Nat)
  | arr (vs : List JVal)
  | obj (fields : List (String × JVal))
  | jnull

/-- The ordered key list of a JSON object (empty for non-objects). -/
def JVal.keys : JVal → List String
  | .obj kvs => kvs.map Prod.fst
  | _ => []

/-- Modelled from the spec: the `MSDatabase` record of `model.py` (not under `src/`):
surrogate id, unique name, connection location (spec section 3). -/
structure MSDatabase where
  id : Nat
  name : String
  host : String
  port : Nat
deriving DecidableEq

/-- Modelled from the spec: the `MSDatabaseSchema` record of `model.py` (not under
`src/`): surrogate id, name, owning database, default-schema marker (spec section 3:
exactly one schema per database is marked default). -/
structure MSDatabaseSchema where
  id : Nat
  name : String
  db_id : Nat
  is_default_schema : Bool
deriving DecidableEq

/-- Modelled from the spec: the `MSDatabaseTable` record of `model.py` (not under
`src/`): id, name, owning schema, description, table-type tag. -/
structure MSDatabaseTable where
  id : Nat
  name : String
  schema_id : Nat
  description : String
  table_type : String
deriving DecidableEq

/-- Modelled from the spec: a column record of `model.py` (not under `src/`):
name, description, data-type tag, UCD, unit, ordinal position within its table. -/
structure MSDatabaseTableColumn where
  id : Nat
  name : String
  table_id : Nat
  description : String
  datatype : String
  ucd : String
  unit : String
  position : Nat
deriving DecidableEq

/-- The catalog store state: the rows visible to the per-request session. -/
structure Store where
  databases : List MSDatabase
  schemas : List MSDatabaseSchema
  tables : List MSDatabaseTable
  columns : List MSDatabaseTableColumn
deriving DecidableEq

/-- Python exception classes that can be raised by the code under scrutiny. -/
inductive PyExc where
  | attributeError
  | indexError
  | multipleResultsFound
  | unicodeDecodeError
  | typeError
  | valueError
deriving DecidableEq

/-- Decimal value of a digit character (`c.toNat - '0'.toNat`, as in numeric parsing). -/
def parseNatChars : List Char → Nat → Nat
  | [], acc => acc
  | c :: cs, acc => parseNatChars cs (acc * 10 + (c.toNat - '0'.toNat))

/-- Modelled from the spec (section 4.1 and section 9): the token "parses as a
surrogate id" when it is a nonempty decimal numeric literal; only then does the
store compare it against the numeric `id` column. -/
def strToNat? (s : String) : Option Nat :=
  if s.data.isEmpty then none
  else if s.data.all Char.isDigit then some (parseNatChars s.data 0)
  else none

/-- The id-or-name predicate of `api_v1.py` lines 181-182, 278-279, 369-370:
`or_(MSDatabase.id == db_id, MSDatabase.name == db_id)`. The comparison of the
numeric id column with the string token is modelled from the spec (section 4.1):
it matches exactly when the token parses as a numeral equal to the id. -/
def dbMatches (db_id : String) (d : MSDatabase) : Bool :=
  (match strToNat? db_id with
   | some n => d.id == n
   | none => false)
  || d.name == db_id

/-- The id-or-name predicate for schemas (`api_v1.py` lines 283-286, 373-376). -/
def schemaMatches (schema_id : String) (s : MSDatabaseSchema) : Bool :=
  (match strToNat? schema_id with
   | some n => s.id == n
   | none => false)
  || s.name == schema_id

/-- The name-or-id predicate for tables (`api_v1.py` lines 382-384). -/
def tableMatches (table_id : String) (t : MSDatabaseTable) : Bool :=
  t.name == table_id
  || (match strToNat? table_id with
      | some n => t.id == n
      | none => false)

/-- SQLAlchemy `Query.scalar()`: `None` on no rows, the sole row if exactly one,
raises `MultipleResultsFound` otherwise (used at `api_v1.py` lines 286, 288, 370,
376, 378, 386). -/
def scalarOf : List α → Except PyExc (Option α)
  | [] => .ok none
  | [a] => .ok (some a)
  | _ :: _ :: _ => .error .multipleResultsFound

/-- The `schemas` relationship of a database (`model.py`, not under `src/`;
spec section 3: a schema back-references its owning database). -/
def schemasOf (st : Store) (d : MSDatabase) : List MSDatabaseSchema :=
  st.schemas.filter (fun s => s.db_id == d.id)

/-- Modelled from the spec: the `default_schema` relationship of a database
(`model.py`, not under `src/`): the schemas of the database marked default. -/
def defaultSchemaRows (st : Store) (d : MSDatabase) : List MSDatabaseSchema :=
  st.schemas.filter (fun s => s.db_id == d.id && s.is_default_schema)

/-- Database resolution by `.first()` (`api_v1.py` lines 181-182 and 278-279). -/
def resolveDbFirst (st : Store) (db_id : String) : Option MSDatabase :=
  st.databases.find? (dbMatches db_id)

/-- Database resolution by `.scalar()` (`api_v1.py` lines 369-370). -/
def resolveDbScalar (st : Store) (db_id : String) : Except PyExc (Option MSDatabase) :=
  scalarOf (st.databases.filter (dbMatches db_id))

/-- Schema resolution scoped to a database (`api_v1.py` lines 283-286, 373-376). -/
def resolveSchemaScalar (st : Store) (d : MSDatabase) (schema_id : String) :
    Except PyExc (Option MSDatabaseSchema) :=
  scalarOf ((schemasOf st d).filter (schemaMatches schema_id))

/-- `database.default_schema.scalar()` (`api_v1.py` lines 288, 378). -/
def defaultSchemaScalar (st : Store) (d : MSDatabase) :
    Except PyExc (Option MSDatabaseSchema) :=
  scalarOf (defaultSchemaRows st d)

/-- The schema step shared by the `tables` and `table` handlers: explicit token if
supplied, default schema otherwise (`api_v1.py` lines 282-288 and 372-378). -/
def resolveSchemaStep (st : Store) (d : MSDatabase) (schema_id : Option String) :
    Except PyExc (Option MSDatabaseSchema) :=
  match schema_id with
  | some sid => resolveSchemaScalar st d sid
  | none => defaultSchemaScalar st d

/-- The tables of a schema (`api_v1.py` lines 292-293:
`filter(MSDatabaseTable.schema_id == schema.id).all()`). -/
def tablesForSchema (st : Store) (schema : MSDatabaseSchema) : List MSDatabaseTable :=
  st.tables.filter (fun t => t.schema_id == schema.id)

/-- Table resolution scoped to a schema (`api_v1.py` lines 380-386:
`and_(schema_id == schema.id, or_(name == table_id, id == table_id))` + `.scalar()`). -/
def resolveTableScalar (st : Store) (schema : MSDatabaseSchema) (table_id : String) :
    Except PyExc (Option MSDatabaseTable) :=
  scalarOf (st.tables.filter (fun t => t.schema_id == schema.id && tableMatches table_id t))

/-- Ascending order on a column's declared ordinal position. -/
def colLE (a b : MSDatabaseTableColumn) : Prop := a.position ≤ b.position

instance : DecidableRel colLE := fun a b => Nat.decLe a.position b.position

instance : IsTotal MSDatabaseTableColumn colLE :=
  ⟨fun a b => Nat.le_total a.position b.position⟩

instance : IsTrans MSDatabaseTableColumn colLE :=
  ⟨fun _ _ _ hab hbc => Nat.le_trans hab hbc⟩

/-- Modelled from the spec: the ordered `columns` relationship of a table
(`model.py` / `api_model.py`, not under `src/`); spec section 4.3: column
descriptors are ordered by ordinal position. -/
def tableColumns (st : Store) (t : MSDatabaseTable) : List MSDatabaseTableColumn :=
  List.insertionSort colLE (st.columns.filter (fun c => c.table_id == t.id))

/-- Modelled from the spec: the marshmallow `Database` serializer of
`api_model.py` (not under `src/`); fields per the spec section 6 example:
name, host, port (rendered as a string), default_schema (the designated default
schema's name, null when the database has none). -/
def databaseFields (st : Store) (d : MSDatabase) : List (String × JVal) :=
  [("name", .s d.name),
   ("host", .s d.host),
   ("port", .s (Nat.repr d.port)),
   ("default_schema",
     match (defaultSchemaRows st d).head? with
     | some s => .s s.name
     | none => .jnull)]

/-- Modelled from the spec: the marshmallow `DatabaseSchema` serializer of
`api_model.py` (not under `src/`); a schema summary carries its name. -/
def schemaFields (s : MSDatabaseSchema) : List (String × JVal) :=
  [("name", .s s.name)]

/-- Modelled from the spec: the marshmallow column serializer of `api_model.py`
(not under `src/`); descriptor fields per the table-detail docstring example:
name, description, datatype, ucd, unit. -/
def columnFields (c : MSDatabaseTableColumn) : List (String × JVal) :=
  [("name", .s c.name),
   ("description", .s c.description),
   ("datatype", .s c.datatype),
   ("ucd", .s c.ucd),
   ("unit", .s c.unit)]

/-- Modelled from the spec: the marshmallow `DatabaseTable` serializer of
`api_model.py` (not under `src/`): table summary plus its columns ordered by
ordinal position. -/
def tableFields (st : Store) (t : MSDatabaseTable) : List (String × JVal) :=
  [("name", .s t.name),
   ("description", .s t.description),
   ("table_type", .s t.table_type),
   ("columns", .arr ((tableColumns st t).map (fun c => .obj (columnFields c))))]

/-- Outcome of running one route handler: how many store queries it issued and
either the JSON document it returned (HTTP 200) or the Python exception it
raised (HTTP 500 via Flask's error handling — the handlers contain no
explicit 404 path). -/
structure HandlerResult where
  queries : Nat
  response : Except PyExc JVal

/-- `GET /db/` (`api_v1.py` `databases`, lines 99-135): one query for all
database rows, wrapped as `{"results": [...]}`. -/
def databases (st : Store) : HandlerResult :=
  { queries := 1
    response := .ok (.obj
      [("results", .arr (st.databases.map (fun d => .obj (databaseFields st d))))]) }

/-- `GET /db/<db_id>/` (`api_v1.py` `database`, lines 138-190): resolve the
database with `.first()`; on a miss the subsequent `database.schemas` access
raises `AttributeError` on `None`; on a hit the response is the database's
fields followed by a `"schemas"` key (an `OrderedDict`, not wrapped). -/
def database (st : Store) (db_id : String) : HandlerResult :=
  match resolveDbFirst st db_id with
  | none => { queries := 1, response := .error .attributeError }
  | some d =>
      { queries := 2
        response := .ok (.obj (databaseFields st d ++
          [("schemas", .arr ((schemasOf st d).map (fun s => .obj (schemaFields s))))])) }

/-- `GET /db/<db_id>/[<schema_id>/]tables/` (`api_v1.py` `tables`,
lines 193-299): database via `.first()` (miss: `AttributeError` on `None` at
`database.schemas` or `database.default_schema`), schema via `.scalar()`
(miss: `AttributeError` on `None` at `schema.id`), then the schema's tables,
wrapped as `{"results": {"schema": ..., "tables": [...]}}`. -/
def tables (st : Store) (db_id : String) (schema_id : Option String) : HandlerResult :=
  match resolveDbFirst st db_id with
  | none => { queries := 1, response := .error .attributeError }
  | some d =>
    match resolveSchemaStep st d schema_id with
    | .error e => { queries := 2, response := .error e }
    | .ok none => { queries := 2, response := .error .attributeError }
    | .ok (some schema) =>
      { queries := 3
        response := .ok (.obj [("results", .obj
          [("schema", .obj (schemaFields schema)),
           ("tables", .arr ((tablesForSchema st schema).map
             (fun t => .obj (tableFields st t))))])]) }

/-- `GET /db/<db_id>/[<schema_id>/]tables/<table_id>/` (`api_v1.py` `table`,
lines 302-390): database via `.scalar()`, schema as in `tables`, table via
`.scalar()` scoped to the schema. A table miss is not detected: marshmallow
dumps `None` to an empty document and the handler answers
`{"result": {}}` with HTTP 200. -/
def table (st : Store) (db_id : String) (table_id : String) (schema_id : Option String) :
    HandlerResult :=
  match resolveDbScalar st db_id with
  | .error e => { queries := 1, response := .error e }
  | .ok none => { queries := 1, response := .error .attributeError }
  | .ok (some d) =>
    match resolveSchemaStep st d schema_id with
    | .error e => { queries := 2, response := .error e }
    | .ok none => { queries := 2, response := .error .attributeError }
    | .ok (some schema) =>
      match resolveTableScalar st schema table_id with
      | .error e => { queries := 3, response := .error e }
      | .ok none => { queries := 3, response := .ok (.obj [("result", .obj [])]) }
      | .ok (some t) => { queries := 3, response := .ok (.obj [("result", .obj (tableFields st t))]) }

/-- The top-level key list of a successful response, `none` for a raised
exception or a non-object document. -/
def respKeys : Except PyExc JVal → Option (List String)
  | .ok (.obj kvs) => some (kvs.map Prod.fst)
  | _ => none

/-- The name pattern `SAFE_NAME_REGEX = r'[A-Za-z_$][A-Za-z0-9_$]*$'`
(`api_v1.py` lines 46-48): first character letter, underscore or dollar,
the rest letters, digits, underscore or dollar. -/
def isSafeName (s : String) : Bool :=
  match s.data with
  | [] => false
  | c :: cs =>
    (c.isAlpha || c == '_' || c == '$')
      && cs.all (fun r => r.isAlphanum || r == '_' || r == '$')

/-- Python `str.split(sep)` for a single-character separator, over char lists. -/
def splitChars (sep : Char) : List Char → List (List Char)
  | [] => [[]]
  | c :: rest =>
    if c == sep then [] :: splitChars sep rest
    else
      match splitChars sep rest with
      | [] => [[c]]
      | g :: gs => (c :: g) :: gs

/-- Python `str.split(sep)` on strings. -/
def pySplit (s : String) (sep : Char) : List String :=
  (splitChars sep s.data).map String.mk

/-- The exception classes named by the `except` clause of `check_auth`
(`api_v1.py` line 86): `UnicodeDecodeError`, `TypeError`, `ValueError`. -/
def caughtInCheckAuth (e : PyExc) : Bool :=
  match e with
  | .unicodeDecodeError => true
  | .typeError => true
  | .valueError => true
  | _ => false

/-- The try-block of `check_auth` (`api_v1.py` lines 78-85): split the header on
a space and take part 1 (raises `IndexError` when absent), split the token on
dots and take segment 1 (raises `IndexError` when absent), pad with
`(len p % 4)` equal signs, then hand the result to the standard-library
base64+JSON decoding stage, which is external to this repository and therefore
a parameter here. -/
def checkAuthTry (decode : String → Except PyExc (Option String))
    (auth_header : String) : Except PyExc (Option String) :=
  match (pySplit auth_header ' ')[1]? with
  | none => .error .indexError
  | some atk =>
    match (pySplit atk '.')[1]? with
    | none => .error .indexError
    | some p => decode (p ++ String.mk (List.replicate (p.length % 4) '='))

/-- The `before_request` hook `check_auth` (`api_v1.py` lines 68-87): with no
`Authorization` header it does nothing; otherwise it runs the try-block and
swallows (logs) exactly `UnicodeDecodeError`, `TypeError` and `ValueError`;
any other exception propagates out of the hook. -/
def check_auth (decode : String → Except PyExc (Option String))
    (auth_header : Option String) : Except PyExc Unit :=
  match auth_header with
  | none => .ok ()
  | some h =>
    match checkAuthTry decode h with
    | .ok _ => .ok ()
    | .error e => if caughtInCheckAuth e then .ok () else .error e

/-- The Flask request pipeline: `before_request` hooks run first; an exception
raised there (or in the handler) yields an HTTP 500 and the handler's document
is never produced. -/
def runRequest (decode : String → Except PyExc (Option String))
    (auth_header : Option String) (handler : HandlerResult) : Except PyExc JVal :=
  match check_auth decode auth_header with
  | .error e => .error e
  | .ok _ => handler.response

/-! ### Concrete store states used as witnesses and counterexamples -/

/-- A store with no rows at all. -/
def stEmpty : Store := ⟨[], [], [], []⟩

def dbW1 : MSDatabase := ⟨7, "alpha", "h1", 3306⟩

def dbW2 : MSDatabase := ⟨2, "beta", "h2", 3306⟩

/-- Two databases whose names are not numerals; used for id-token resolution. -/
def stW1 : Store := ⟨[dbW1, dbW2], [], [], []⟩

def db1 : MSDatabase := ⟨1, "db1", "h", 3360⟩

def sDefault : MSDatabaseSchema := ⟨10, "s1", 1, true⟩

def tObject : MSDatabaseTable := ⟨100, "Object", 10, "The Object table", "table"⟩

/-- One database with a default schema holding one table and no columns. -/
def stOneTable : Store := ⟨[db1], [sDefault], [tObject], []⟩

/-- One database whose only schema is not marked default. -/
def stNoDefault : Store := ⟨[db1], [⟨10, "s1", 1, false⟩], [], []⟩

def colPos0 : MSDatabaseTableColumn := ⟨1, "objectId", 100, "Unique object id.", "int", "meta.id;src", "", 0⟩

def colPos1 : MSDatabaseTableColumn := ⟨2, "ra", 100, "RA", "double", "pos.eq.ra", "deg", 1⟩

def colPos2 : MSDatabaseTableColumn := ⟨3, "decl", 100, "Dec", "double", "pos.eq.dec", "deg", 2⟩

/-- The spec's section 8 ordering experiment: the column rows are stored in
ordinal order [2, 0, 1]. -/
def stShuffled : Store := ⟨[db1], [sDefault], [tObject], [colPos2, colPos0, colPos1]⟩

def dbAmb1 : MSDatabase := ⟨1, "x", "h", 0⟩

def dbAmb2 : MSDatabase := ⟨5, "1", "h", 0⟩

/-- An ambiguous token: "1" matches `dbAmb1` by id and `dbAmb2` by name. -/
def stAmbig : Store := ⟨[dbAmb1, dbAmb2], [], [], []⟩

/-! ### Decimal rendering round-trip: `strToNat? (Nat.repr n) = some n` -/

/-- The decimal digit characters of `n`, most significant first. -/
def decChars (n : Nat) : List Char :=
  if _h : n < 10 then [Nat.digitChar n]
  else decChars (n / 10) ++ [Nat.digitChar (n % 10)]
termination_by n
decreasing_by omega

theorem digitChar_isDigit_lt10 : ∀ n : Nat, n < 10 → (Nat.digitChar n).isDigit = true := by
  decide

theorem digitChar_val_lt10 : ∀ n : Nat, n < 10 → (Nat.digitChar n).toNat - '0'.toNat = n := by
  decide

theorem decChars_ne_nil (n : Nat) : decChars n ≠ [] := by
  unfold decChars
  split
  · simp
  · simp

theorem decChars_isDigit (n : Nat) : ∀ c ∈ decChars n, c.isDigit = true := by
  induction n using Nat.strong_induction_on with
  | _ n ih =>
    unfold decChars
    split
    · next h =>
      intro c hc
      simp only [List.mem_singleton] at hc
      subst hc
      exact digitChar_isDigit_lt10 n h
    · next h =>
      intro c hc
      rw [List.mem_append] at hc
      rcases hc with hc | hc
      · exact ih (n / 10) (Nat.div_lt_self (by omega) (by omega)) c hc
      · simp only [List.mem_singleton] at hc
        subst hc
        exact digitChar_isDigit_lt10 (n % 10) (Nat.mod_lt n (by omega))

theorem toDigitsCore_eq (fuel : Nat) :
    ∀ (n : Nat) (acc : List Char), n < fuel →
      Nat.toDigitsCore 10 fuel n acc = decChars n ++ acc := by
  induction fuel with
  | zero => intro n acc h; omega
  | succ f ih =>
    intro n acc h
    have hstep : Nat.toDigitsCore 10 (f + 1) n acc =
        if n / 10 = 0 then Nat.digitChar (n % 10) :: acc
        else Nat.toDigitsCore 10 f (n / 10) (Nat.digitChar (n % 10) :: acc) := rfl
    rw [hstep]
    by_cases h0 : n / 10 = 0
    · rw [if_pos h0]
      have hlt : n < 10 := by omega
      conv_rhs => rw [decChars]
      rw [dif_pos hlt, Nat.mod_eq_of_lt hlt]
      rfl
    · rw [if_neg h0]
      have hlt2 : n / 10 < f := by omega
      rw [ih (n / 10) (Nat.digitChar (n % 10) :: acc) hlt2]
      conv_rhs => rw [decChars]
      rw [dif_neg (by omega : ¬ n < 10)]
      simp [List.append_assoc]

theorem toDigits_eq (n : Nat) : Nat.toDigits 10 n = decChars n := by
  rw [Nat.toDigits, toDigitsCore_eq (n + 1) n [] (Nat.lt_succ_self n), List.append_nil]

theorem repr_data (n : Nat) : (Nat.repr n).data = decChars n := by
  have h : Nat.repr n = (Nat.toDigits 10 n).asString := rfl
  rw [h, toDigits_eq]
  rfl

theorem parseNatChars_append (l1 l2 : List Char) :
    ∀ acc, parseNatChars (l1 ++ l2) acc = parseNatChars l2 (parseNatChars l1 acc) := by
  induction l1 with
  | nil => intro acc; rfl
  | cons c cs ih =>
    intro acc
    show parseNatChars (cs ++ l2) (acc * 10 + (c.toNat - '0'.toNat)) =
      parseNatChars l2 (parseNatChars cs (acc * 10 + (c.toNat - '0'.toNat)))
    exact ih _

theorem parseNatChars_decChars (n : Nat) :
    ∀ acc, parseNatChars (decChars n) acc = acc * 10 ^ (decChars n).length + n := by
  induction n using Nat.strong_induction_on with
  | _ n ih =>
    intro acc
    unfold decChars
    split
    · next h =>
      simp only [parseNatChars, List.length_singleton, pow_one]
      rw [digitChar_val_lt10 n h]
    · next h =>
      rw [parseNatChars_append, ih (n / 10) (Nat.div_lt_self (by omega) (by omega)) acc]
      simp only [parseNatChars, List.length_append, List.length_singleton]
      rw [digitChar_val_lt10 (n % 10) (Nat.mod_lt n (by omega))]
      rw [pow_succ, ← Nat.mul_assoc]
      generalize acc * 10 ^ (decChars (n / 10)).length = m
      omega

theorem strToNat?_repr (n : Nat) : strToNat? (Nat.repr n) = some n := by
  unfold strToNat?
  rw [repr_data]
  rw [if_neg (by
    intro hcontra
    exact decChars_ne_nil n (List.isEmpty_iff.mp hcontra))]
  rw [if_pos (List.all_eq_true.mpr (decChars_isDigit n))]
  rw [parseNatChars_decChars]
  simp

/-! ### List query combinator lemmas -/

theorem find?_eq_some_of_only {α : Type} {p : α → Bool} {d : α} :
    ∀ l : List α, d ∈ l → p d = true → (∀ x ∈ l, p x = true → x = d) →
      l.find? p = some d := by
  intro l
  induction l with
  | nil => intro hmem; cases hmem
  | cons a tl ih =>
    intro hmem hd honly
    cases ha : p a with
    | true =>
      rw [List.find?_cons_of_pos _ ha]
      rw [honly a (List.mem_cons_self a tl) ha]
    | false =>
      rw [List.find?_cons_of_neg _ (by simp [ha])]
      apply ih ?_ hd ?_
      · rcases List.mem_cons.mp hmem with heq | hm
        · rw [← heq] at ha; rw [hd] at ha; cases ha
        · exact hm
      · intro x hx hpx
        exact honly x (List.mem_cons_of_mem a hx) hpx

theorem filter_eq_single_of_only {α : Type} {p : α → Bool} {d : α} :
    ∀ l : List α, d ∈ l → l.Nodup → p d = true → (∀ x ∈ l, p x = true → x = d) →
      l.filter p = [d] := by
  intro l
  induction l with
  | nil => intro hmem; cases hmem
  | cons a tl ih =>
    intro hmem hnd hd honly
    obtain ⟨hnotin, hndtl⟩ := List.nodup_cons.mp hnd
    cases ha : p a with
    | true =>
      have had : a = d := honly a (List.mem_cons_self a tl) ha
      rw [List.filter_cons_of_pos ha]
      have htl : tl.filter p = [] := by
        rw [List.filter_eq_nil_iff]
        intro x hx hpx
        have hxd := honly x (List.mem_cons_of_mem a hx) hpx
        apply hnotin
        rw [had, ← hxd]
        exact hx
      rw [htl, had]
    | false =>
      rw [List.filter_cons_of_neg (by simp [ha])]
      apply ih ?_ hndtl hd ?_
      · rcases List.mem_cons.mp hmem with heq | hm
        · rw [← heq] at ha; rw [hd] at ha; cases ha
        · exact hm
      · intro x hx hpx
        exact honly x (List.mem_cons_of_mem a hx) hpx

theorem find?_eq_head?_filter {α : Type} (p : α → Bool) :
    ∀ l : List α, l.find? p = (l.filter p).head? := by
  intro l
  induction l with
  | nil => rfl
  | cons a tl ih =>
    cases ha : p a with
    | true => rw [List.find?_cons_of_pos _ ha, List.filter_cons_of_pos ha]; rfl
    | false =>
      rw [List.find?_cons_of_neg _ (by simp [ha]), List.filter_cons_of_neg (by simp [ha])]
      exact ih

theorem scalarOf_ok_some_mem {α : Type} {l : List α} {a : α}
    (h : scalarOf l = .ok (some a)) : a ∈ l := by
  cases l with
  | nil => simp [scalarOf] at h
  | cons x tl =>
    cases tl with
    | nil =>
      simp only [scalarOf, Except.ok.injEq, Option.some.injEq] at h
      rw [← h]
      exact List.mem_cons_self x []
    | cons y tl2 => simp [scalarOf] at h

theorem scalarOf_two_le {α : Type} {l : List α} (h : 2 ≤ l.length) :
    scalarOf l = .error .multipleResultsFound := by
  cases l with
  | nil => simp at h
  | cons a tl =>
    cases tl with
    | nil => simp at h
    | cons b tl2 => rfl

/-! ### The claims -/

/-- C1: the database-resolution lookup used by the database-detail, tables-list and
table-detail operations matches a record iff the record's name equals the token
verbatim or the record's surrogate id equals the token's numeric value; in
particular, for an existing database with id `i` whose decimal rendering is no
database's name, resolving `str(i)` returns that database, both under the
`.first()` lookup and under the `.scalar()` lookup. -/
theorem C1_lookup_matches_id_or_name :
    (∀ (tok : String) (d : MSDatabase),
        dbMatches tok d = true ↔ (d.name = tok ∨ ∃ n, strToNat? tok = some n ∧ d.id = n))
    ∧ (∀ (st : Store) (d : MSDatabase),
        d ∈ st.databases →
        st.databases.Nodup →
        (∀ x ∈ st.databases, x.id = d.id → x = d) →
        (∀ x ∈ st.databases, x.name ≠ Nat.repr d.id) →
        resolveDbFirst st (Nat.repr d.id) = some d
          ∧ resolveDbScalar st (Nat.repr d.id) = .ok (some d)) := by
  constructor
  · intro tok d
    unfold dbMatches
    cases h : strToNat? tok with
    | none => simp [h]
    | some n =>
      simp only [h, Bool.or_eq_true, beq_iff_eq, Option.some.injEq]
      constructor
      · rintro (hid | hname)
        · exact Or.inr ⟨n, rfl, hid⟩
        · exact Or.inl hname
      · rintro (hname | ⟨m, hm, hid⟩)
        · exact Or.inr hname
        · exact Or.inl (hm ▸ hid)
  · intro st d hmem hnodup huniq hname
    have hmatch : dbMatches (Nat.repr d.id) d = true := by
      unfold dbMatches
      rw [strToNat?_repr]
      simp
    have honly : ∀ x ∈ st.databases, dbMatches (Nat.repr d.id) x = true → x = d := by
      intro x hx hm
      unfold dbMatches at hm
      rw [strToNat?_repr] at hm
      simp only [Bool.or_eq_true, beq_iff_eq] at hm
      rcases hm with hid | hnm
      · exact huniq x hx hid
      · exact absurd hnm (hname x hx)
    refine ⟨?_, ?_⟩
    · exact find?_eq_some_of_only st.databases hmem hmatch honly
    · unfold resolveDbScalar
      rw [filter_eq_single_of_only st.databases hmem hnodup hmatch honly]
      rfl

/-- C1 witness: in `stW1` the token "7" — the surrogate id of `dbW1` rendered in
decimal, and not any database's name — resolves to `dbW1` under both lookups. -/
theorem C1_lookup_matches_id_or_name_witness :
    resolveDbFirst stW1 "7" = some dbW1 ∧ resolveDbScalar stW1 "7" = .ok (some dbW1) := by
  have h := C1_lookup_matches_id_or_name.2 stW1 dbW1 (by decide) (by decide) (by decide)
    (by decide)
  exact h

/-- C2: the claim fails on the code: `SAFE_SCHEMA_PATTERN` (api_v1.py lines 46-48)
is compiled but never applied, so a request whose path token fails the name
pattern is not rejected before resolution — the database-detail handler issues
its store query (at least one lookup) for the malformed tokens "1bad" and
"has space" all the same, and on a miss raises AttributeError rather than
answering with a client error. -/
theorem C2_malformed_token_still_queries :
    isSafeName "1bad" = false ∧ isSafeName "has space" = false
      ∧ (∀ st : Store, 1 ≤ (database st "1bad").queries
          ∧ 1 ≤ (database st "has space").queries)
      ∧ (database stEmpty "1bad").queries = 1
      ∧ (database stEmpty "1bad").response = .error .attributeError := by
  refine ⟨by decide, by decide, ?_, rfl, rfl⟩
  intro st
  constructor
  · unfold database
    cases resolveDbFirst st "1bad" with
    | none => exact Nat.le_refl 1
    | some d => exact Nat.le_succ 1
  · unfold database
    cases resolveDbFirst st "has space" with
    | none => exact Nat.le_refl 1
    | some d => exact Nat.le_succ 1

/-- C3: the claim fails on the code: a resolution miss is never translated into an
HTTP 404. A database-level or schema-level miss raises AttributeError on `None`
(rendered by Flask as HTTP 500), and a table-level miss is not detected at all —
the handler answers HTTP 200 with an empty result document. -/
theorem C3_miss_is_exception_not_404 :
    (database stEmpty "nonexistent").response = .error .attributeError
    ∧ (tables stOneTable "db1" (some "missing")).response = .error .attributeError
    ∧ (table stOneTable "db1" "nope" none).response = .ok (.obj [("result", .obj [])]) :=
  ⟨rfl, rfl, rfl⟩

/-- C4: an explicit schema token is resolved id-or-name scoped to the database
("10" and "s1" name the same schema) and an absent token falls back to the
designated default schema, but the edge case contradicts the claim: when the
database has no default schema set and no token is given, the handlers raise
AttributeError (`schema.id` on `None`) — an HTTP 500 — instead of NotFound(Schema). -/
theorem C4_default_schema_fallback_and_crash :
    (tables stOneTable "db1" none).response = (tables stOneTable "db1" (some "s1")).response
    ∧ (tables stOneTable "db1" (some "10")).response = (tables stOneTable "db1" (some "s1")).response
    ∧ (tables stOneTable "db1" none).queries = 3
    ∧ (tables stNoDefault "db1" none).response = .error .attributeError
    ∧ (table stNoDefault "db1" "Object" none).response = .error .attributeError :=
  ⟨rfl, rfl, rfl, rfl, rfl⟩

/-- C5 counterexample: the database-detail response is not wrapped in a "result"
object — at `stOneTable` its top-level keys are the database's own fields followed
by "schemas". -/
theorem C5_database_detail_unwrapped :
    respKeys (database stOneTable "db1").response
        = some ["name", "host", "port", "default_schema", "schemas"]
    ∧ respKeys (database stOneTable "db1").response ≠ some ["result"] :=
  ⟨by decide, by decide⟩

/-- C5 (amended): the databases collection is wrapped as `results`; table-detail is
wrapped as `result`; database-detail is returned unwrapped, the database's fields
first and the schema sub-collection merged under a trailing "schemas" key; the
tables-list response wraps under `results` an object holding a "schema" object and
a sibling "tables" array (the sub-collection is not nested inside the schema). -/
theorem C5_envelope_amended :
    (∀ st : Store, respKeys (databases st).response = some ["results"])
    ∧ (∀ (st : Store) (db_id : String) (v : JVal),
        (database st db_id).response = .ok v →
          v.keys = ["name", "host", "port", "default_schema", "schemas"])
    ∧ (∀ (st : Store) (db_id : String) (schema_id : Option String) (v : JVal),
        (tables st db_id schema_id).response = .ok v →
          ∃ sdoc tdocs,
            v = .obj [("results", .obj [("schema", sdoc), ("tables", .arr tdocs)])])
    ∧ (∀ (st : Store) (db_id table_id : String) (schema_id : Option String) (v : JVal),
        (table st db_id table_id schema_id).response = .ok v → v.keys = ["result"]) := by
  refine ⟨fun st => rfl, ?_, ?_, ?_⟩
  · intro st db_id v h
    unfold database at h
    split at h
    · simp at h
    · simp only [Except.ok.injEq] at h
      rw [← h]
      simp [JVal.keys, databaseFields]
  · intro st db_id schema_id v h
    unfold tables at h
    split at h
    · simp at h
    · split at h
      · simp at h
      · simp at h
      · simp only [Except.ok.injEq] at h
        exact ⟨_, _, h.symm⟩
  · intro st db_id table_id schema_id v h
    unfold table at h
    split at h
    · simp at h
    · simp at h
    · split at h
      · simp at h
      · simp at h
      · split at h
        · simp at h
        · simp only [Except.ok.injEq] at h
          rw [← h]
          rfl
        · simp only [Except.ok.injEq] at h
          rw [← h]
          rfl

/-- C5 witness: the amended envelope shape instantiated on the concrete store
`stOneTable` for the database-detail operation. -/
theorem C5_envelope_amended_witness :
    (JVal.obj (databaseFields stOneTable db1 ++
        [("schemas", .arr [.obj (schemaFields sDefault)])])).keys
      = ["name", "host", "port", "default_schema", "schemas"] :=
  C5_envelope_amended.2.1 stOneTable "db1" _ rfl

/-- C6: the claim fails on the code: an Authorization header whose bearer token
lacks the token part ("Bearer") or lacks a payload segment ("Bearer abc") raises
IndexError inside check_auth, and IndexError is not among the caught classes
(UnicodeDecodeError, TypeError, ValueError), so it escapes the before_request
hook and turns the response into a server error regardless of the decoding stage
and of the route handler; a ValueError-class decode failure (bad base64 or bad
JSON) is by contrast swallowed and the request proceeds. -/
theorem C6_auth_indexerror_escapes :
    ∀ (decode : String → Except PyExc (Option String)) (st : Store) (db_id : String),
      check_auth decode (some "Bearer abc") = .error .indexError
      ∧ check_auth decode (some "Bearer") = .error .indexError
      ∧ runRequest decode (some "Bearer abc") (database st db_id) = .error .indexError
      ∧ check_auth (fun _ => .error .valueError) (some "Bearer abc.def") = .ok () :=
  fun _ _ _ => ⟨rfl, rfl, rfl, rfl⟩

/-- C7: table-detail lists columns in ascending declared ordinal position whatever
order the store holds them: the rendered column sequence is sorted by position and
is a permutation of the stored rows of that table; in the spec's experiment with
stored positions [2,0,1] the rendered positions are [0,1,2]. -/
theorem C7_columns_ordered_by_position :
    (∀ (st : Store) (t : MSDatabaseTable),
        List.Sorted colLE (tableColumns st t)
          ∧ (tableColumns st t).Perm (st.columns.filter (fun c => c.table_id == t.id)))
    ∧ (tableColumns stShuffled tObject).map (fun c => c.position) = [0, 1, 2] := by
  refine ⟨fun st t => ⟨?_, ?_⟩, by decide⟩
  · exact List.sorted_insertionSort colLE _
  · exact List.perm_insertionSort colLE _

/-- C8: table lookups are scoped to the resolved schema: every row produced for a
tables-list belongs to that schema, and a table-detail hit both belongs to that
schema and matches the token — a matching table in another schema is never
returned. -/
theorem C8_table_lookup_scoped :
    (∀ (st : Store) (schema : MSDatabaseSchema) (t : MSDatabaseTable),
        t ∈ tablesForSchema st schema → t.schema_id = schema.id)
    ∧ (∀ (st : Store) (schema : MSDatabaseSchema) (table_id : String) (t : MSDatabaseTable),
        resolveTableScalar st schema table_id = .ok (some t) →
          t.schema_id = schema.id ∧ tableMatches table_id t = true) := by
  constructor
  · intro st schema t ht
    have hp := List.of_mem_filter ht
    exact beq_iff_eq.mp hp
  · intro st schema table_id t h
    have hmem := scalarOf_ok_some_mem h
    have hp := List.of_mem_filter hmem
    simp only [Bool.and_eq_true, beq_iff_eq] at hp
    exact hp

/-- C8 witness: in `stOneTable`, the table `tObject` produced by both lookups
belongs to the resolved schema `sDefault`. -/
theorem C8_table_lookup_scoped_witness :
    tObject.schema_id = sDefault.id
      ∧ (tObject.schema_id = sDefault.id ∧ tableMatches "Object" tObject = true) :=
  ⟨C8_table_lookup_scoped.1 stOneTable sDefault tObject (by decide),
   C8_table_lookup_scoped.2 stOneTable sDefault "Object" tObject rfl⟩

/-- C9: projection is deterministic — each handler is a pure function of the store
state and the path tokens — and the field order inside every object of the
document is the fixed definition order of its serializer. -/
theorem C9_deterministic_stable_fields :
    (∀ (st : Store) (db_id table_id : String) (schema_id : Option String),
        database st db_id = database st db_id
          ∧ tables st db_id schema_id = tables st db_id schema_id
          ∧ table st db_id table_id schema_id = table st db_id table_id schema_id)
    ∧ (∀ (st : Store) (d : MSDatabase),
        (databaseFields st d).map Prod.fst = ["name", "host", "port", "default_schema"])
    ∧ (∀ s : MSDatabaseSchema, (schemaFields s).map Prod.fst = ["name"])
    ∧ (∀ (st : Store) (t : MSDatabaseTable),
        (tableFields st t).map Prod.fst = ["name", "description", "table_type", "columns"])
    ∧ (∀ c : MSDatabaseTableColumn,
        (columnFields c).map Prod.fst = ["name", "description", "datatype", "ucd", "unit"]) :=
  ⟨fun _ _ _ _ => ⟨rfl, rfl, rfl⟩, fun _ _ => rfl, fun _ => rfl, fun _ _ => rfl, fun _ => rfl⟩

/-- C10: on an ambiguous token — two or more matching database records — the
first-based endpoints (database-detail, tables-list) resolve to the first matching
record, while table-detail's `.scalar()` lookup raises MultipleResultsFound and
the request aborts with a server error instead of picking one. -/
theorem C10_ambiguous_token_disagreement :
    ∀ (st : Store) (tok : String),
      2 ≤ (st.databases.filter (dbMatches tok)).length →
        resolveDbFirst st tok = (st.databases.filter (dbMatches tok)).head?
        ∧ resolveDbScalar st tok = .error .multipleResultsFound
        ∧ (∀ (table_id : String) (schema_id : Option String),
            table st tok table_id schema_id
              = { queries := 1, response := .error .multipleResultsFound }) := by
  intro st tok hlen
  have hscalar : resolveDbScalar st tok = .error .multipleResultsFound := by
    unfold resolveDbScalar
    exact scalarOf_two_le hlen
  refine ⟨?_, hscalar, ?_⟩
  · exact find?_eq_head?_filter (dbMatches tok) st.databases
  · intro table_id schema_id
    unfold table
    rw [hscalar]

/-- C10 witness: in `stAmbig` the token "1" matches `dbAmb1` (by id) and `dbAmb2`
(by name): the first-based lookup returns `dbAmb1`, the scalar lookup raises. -/
theorem C10_ambiguous_token_disagreement_witness :
    resolveDbFirst stAmbig "1" = some dbAmb1
      ∧ resolveDbScalar stAmbig "1" = .error .multipleResultsFound := by
  have h := C10_ambiguous_token_disagreement stAmbig "1" (by decide)
  exact ⟨h.1.trans (by decide), h.2.1⟩
